import Mathlib

/-!
Verification of the MySanta recommendation engine
(`app/recommendation_service_v2.py`, `app/background_jobs.py`,
`app/algorithms/content_based.py`, `full_sync.py`, `app/models.py`).

The SQL-backed stores are embedded as explicit Lean data:

* the transactional ("main") database as lists of catalog items, like rows
  and click rows;
* the derived ("recommendations") database as lists of popular-item rows,
  item-similarity rows and user-profile rows;
* every SQL query of the request path and of the builders as a pure list
  computation over that data (filters for WHERE, a stable insertion sort for
  ORDER BY ... DESC, `take` for LIMIT);
* floats as exact rationals.

Python dicts that are used as ordered counters are embedded as association
lists in insertion order.
-/

namespace SantaRec

/-- Descending stable sort by a key, the embedding of SQL
`ORDER BY key DESC` and of Python `sort(key=..., reverse=True)`. -/
def sortDescBy {α β : Type} [LinearOrder β] (f : α → β) (l : List α) : List α :=
  l.insertionSort (fun x y => f y ≤ f x)

/-- Python truthiness on an optional string: `None` and `""` are falsy. -/
def truthy : Option String → Option String
  | some s => if s = "" then none else some s
  | none => none

/-- Lookup of one facet in an item's `categories` map
(the embedding of Python `categories.get(key)` / SQL `categories ->> key`). -/
def facetGet (cats : List (String × String)) (k : String) : Option String :=
  (cats.find? (fun p => p.1 = k)).map (·.2)

/-- A facet value that passes the builders' guard
`if value and value != 'unknown'`. -/
def validFacet (cats : List (String × String)) (k : String) : Option String :=
  match facetGet cats k with
  | some v => if v = "" ∨ v = "unknown" then none else some v
  | none => none

/-- Sum of the values of an association-list counter. -/
def sumVals (m : List (String × ℚ)) : ℚ :=
  (m.map (·.2)).sum

/-- Value lookup in an association list (Python `d.get(k)` / `k in d`). -/
def lookupQ (m : List (String × ℚ)) (k : String) : Option ℚ :=
  (m.find? (fun p => p.1 = k)).map (·.2)

/-! ## Data model: the transactional store -/

/-- A row of `handpicked_presents`.  `ownerId = none` is a public present
(`user_id IS NULL`); `createdAt` is a timestamp in days. -/
structure Item where
  itemId : String
  geoId : Int
  categories : List (String × String)
  price : ℚ
  platform : String
  status : String
  ownerId : Option String
  createdAt : ℚ
  deriving DecidableEq

/-- A row of `handpicked_likes`. -/
structure Like where
  userId : String
  itemId : String
  deriving DecidableEq

/-- The main (transactional, read-only) database.  `clicks` holds the
`handpicked_present_id` of each `handpicked_present_clicks` row. -/
structure MainDB where
  presents : List Item
  likes : List Like
  clicks : List String
  deriving DecidableEq

/-! ## Data model: the derived store -/

/-- A row of `popular_items` (without `updated_at`). -/
structure PopularRow where
  geoId : Int
  gender : String
  ageGroup : String
  category : String
  itemId : String
  score : ℚ
  deriving DecidableEq

/-- A row of `item_similarities`. -/
structure SimilarityRow where
  item_a : String
  item_b : String
  similarity_score : ℚ
  co_occurrence_count : Nat
  item_a_total_likes : Nat
  item_b_total_likes : Nat
  deriving DecidableEq

/-- A row of `user_profiles` as read back by `_get_user_profile`. -/
structure UserProfileRow where
  user_id : String
  preferred_categories : List (String × ℚ)
  preferred_platforms : List (String × ℚ)
  avg_price : Option ℚ
  buying_patterns_target_ages : List (String × ℚ)
  buying_patterns_relationships : List (String × ℚ)
  buying_patterns_gender_targets : List (String × ℚ)
  interaction_count : Nat
  deriving DecidableEq

/-- The recommendations (derived, read/write) database. -/
structure RecDB where
  popularItems : List PopularRow
  itemSimilarities : List SimilarityRow
  userProfiles : List UserProfileRow
  deriving DecidableEq

/-! ## Request model (`app/models.py`) -/

/-- `Filters` from `app/models.py`. -/
structure Filters where
  price_from : Option ℚ
  price_to : Option ℚ
  category : Option String
  suitable_for : Option String
  acquaintance_level : Option String
  platform : Option String
  deriving DecidableEq

/-- `UserParams` from `app/models.py`. -/
structure UserParams where
  gender : Option String
  age : Option String
  category : Option String
  geo_id : Int
  deriving DecidableEq

/-- `PopularItemsRequest`; `page` and `limit` are the validated pagination
fields (`page ≥ 1`, `1 ≤ limit ≤ 100`). -/
structure PopularItemsRequest where
  user_params : UserParams
  filters : Option Filters
  page : Nat
  limit : Nat
  deriving DecidableEq

/-- `PersonalizedRequest` from `app/models.py`. -/
structure PersonalizedRequest where
  user_id : String
  geo_id : Int
  filters : Option Filters
  page : Nat
  limit : Nat
  deriving DecidableEq

/-! ## Filter application (`RecommendationServiceV2._apply_filters`) -/

/-- Whether one present satisfies every active condition that
`_apply_filters` adds to its WHERE clause.  String filters are guarded by
Python truthiness (`if value:`), price filters by `is not None`. -/
def matchesFilters (f : Filters) (it : Item) : Bool :=
  (match f.price_from with | some p => decide (p ≤ it.price) | none => true) &&
  (match f.price_to with | some p => decide (it.price ≤ p) | none => true) &&
  (match truthy f.category with
   | some c => decide (facetGet it.categories "category" = some c) | none => true) &&
  (match truthy f.suitable_for with
   | some c => decide (facetGet it.categories "suitable_for" = some c) | none => true) &&
  (match truthy f.acquaintance_level with
   | some c => decide (facetGet it.categories "acquaintance_level" = some c) | none => true) &&
  (match truthy f.platform with
   | some p => decide (it.platform = p) | none => true)

/-- The filter SQL of `_apply_filters`: keep the ids whose present matches
geo and all active filters; `ORDER BY array_position($1, hp.id)` keeps the
candidate list's original order. -/
def filterQuery (m : MainDB) (ids : List String) (f : Filters) (geo : Int) : List String :=
  ids.filter (fun iid =>
    m.presents.any (fun it =>
      it.itemId = iid && it.geoId = geo && matchesFilters f it))

/-- `RecommendationServiceV2._apply_filters` on the success path
(the failure path is embedded separately as `apply_filters_e`). -/
def apply_filters (m : MainDB) (ids : List String) (f : Option Filters) (geo : Int) :
    List String :=
  if ids.isEmpty then []
  else
    match f with
    | none => ids
    | some ff => filterQuery m ids ff geo

/-! ## Pagination (`Pagination.offset`, response assembly) -/

/-- `PaginationInfo` from `app/models.py`. -/
structure PaginationInfo where
  page : Nat
  limit : Nat
  total_pages : Nat
  total_count : Nat
  has_next : Bool
  has_previous : Bool
  deriving DecidableEq

/-- `math.ceil(total / limit)` for naturals (`limit ≥ 1`). -/
def ceilDiv (total limit : Nat) : Nat :=
  (total + limit - 1) / limit

/-- `total_pages = math.ceil(total_count / limit) if total_count > 0 else 0`. -/
def totalPages (total limit : Nat) : Nat :=
  if 0 < total then ceilDiv total limit else 0

/-- The pagination metadata built by both request handlers. -/
def buildPagination (total page limit : Nat) : PaginationInfo :=
  { page := page
    limit := limit
    total_pages := totalPages total limit
    total_count := total
    has_next := decide (page < totalPages total limit)
    has_previous := decide (1 < page) }

/-- The page slice `filtered_items[offset : offset + limit]` with
`offset = (page - 1) * limit` (`Pagination.offset`). -/
def pageSlice (l : List String) (page limit : Nat) : List String :=
  (l.drop ((page - 1) * limit)).take limit

/-- The response shape common to both endpoints (computation time and the
cache-hit flag carry no algorithmic content and are omitted). -/
structure RecommendationResponse where
  items : List String
  pagination : PaginationInfo
  algorithm_used : String
  deriving DecidableEq

/-! ## C10: `_apply_filters` is an identity without filters -/

/-- C10: the filter-application step is an identity when no filters are
active — for every candidate id list, `_apply_filters` with `filters = None`
returns the list unchanged — and on the empty candidate list it returns the
empty list for every filter argument. -/
theorem claim_C10_apply_filters_identity
    (m : MainDB) (ids : List String) (geo : Int) (f : Option Filters) :
    apply_filters m ids none geo = ids ∧ apply_filters m [] f geo = [] := by
  constructor
  · unfold apply_filters
    cases ids <;> simp
  · unfold apply_filters
    simp

/-! ## Cache keys (`_build_popular_cache_key`, `_build_personalized_cache_key`) -/

/-- The value of `settings.cache_key_prefix` ("v3"), the global version
segment of every cache key (the Python attribute name is not reusable as a
Lean name). -/
def cacheKeyVersion : String := "v3"

/-- `value or "any"` on an optional segment parameter. -/
def orAny : Option String → String
  | some s => if s = "" then "any" else s
  | none => "any"

/-- Python `int()` on a rational: truncation toward zero. -/
def pyInt (q : ℚ) : ℤ :=
  if q < 0 then -(Int.floor (-q)) else Int.floor q

/-- The filter segments both key builders append: `pf`/`pt` for truthy
price bounds and `cat` for a truthy category, and nothing else. -/
def filterKeyParts (f : Option Filters) : List String :=
  match f with
  | none => []
  | some ff =>
    (match ff.price_from with
     | some p => if p = 0 then [] else ["pf" ++ toString (pyInt p)]
     | none => []) ++
    (match ff.price_to with
     | some p => if p = 0 then [] else ["pt" ++ toString (pyInt p)]
     | none => []) ++
    (match truthy ff.category with
     | some c => ["cat" ++ c]
     | none => [])

/-- `RecommendationServiceV2._build_popular_cache_key`. -/
def build_popular_cache_key (req : PopularItemsRequest) : String :=
  String.intercalate ":"
    ([cacheKeyVersion, "popular", toString req.user_params.geo_id,
      orAny req.user_params.gender, orAny req.user_params.age,
      orAny req.user_params.category, toString req.page, toString req.limit]
     ++ filterKeyParts req.filters)

/-- `RecommendationServiceV2._build_personalized_cache_key`. -/
def build_personalized_cache_key (req : PersonalizedRequest) : String :=
  String.intercalate ":"
    ([cacheKeyVersion, "personalized", req.user_id, toString req.geo_id,
      toString req.page, toString req.limit]
     ++ filterKeyParts req.filters)

/-- Sanity check against `tests/test_helpers.py::test_build_popular_cache_key_with_filters`. -/
theorem build_popular_cache_key_matches_unit_test :
    build_popular_cache_key
      ⟨⟨some "m", some "35-44", some "books", 123⟩,
       some ⟨some 100, some 500, some "fiction", none, none, none⟩, 2, 50⟩
      = "v3:popular:123:m:35-44:books:2:50:pf100:pt500:catfiction" := by
  rfl

def fOzonC7 : Filters := ⟨none, none, none, none, none, some "ozon"⟩

def fWbC7 : Filters := ⟨none, none, none, none, none, some "wildberries"⟩

def reqC7a : PopularItemsRequest := ⟨⟨some "f", some "25-34", none, 213⟩, some fOzonC7, 1, 20⟩

def reqC7b : PopularItemsRequest := ⟨⟨some "f", some "25-34", none, 213⟩, some fWbC7, 1, 20⟩

def itemC7 : Item := ⟨"i1", 213, [], 100, "ozon", "in_stock", none, 0⟩

/-- C7: the cache key omits the platform filter although `_apply_filters`
applies it — two requests that are identical except for an active platform
filter (which `matchesFilters` treats differently on a concrete item) get
the same popular and the same personalized cache key, so a cached result
computed under one platform filter is served for the other. -/
theorem claim_C7_platform_missing_from_cache_key :
    build_popular_cache_key reqC7a = build_popular_cache_key reqC7b ∧
    reqC7a.filters ≠ reqC7b.filters ∧
    matchesFilters fOzonC7 itemC7 = true ∧
    matchesFilters fWbC7 itemC7 = false ∧
    build_personalized_cache_key ⟨"u1", 213, some fOzonC7, 1, 20⟩
      = build_personalized_cache_key ⟨"u1", 213, some fWbC7, 1, 20⟩ := by
  refine ⟨rfl, by decide, by decide, by decide, rfl⟩

/-! ## Similarity Builder (`BackgroundJobs.update_item_similarities`) -/

/-- `co_occurrence_count` of a pair: the row count of the self-join of
`handpicked_likes` on `user_id` with `l1` on item `a` and `l2` on item `b`. -/
def coOccurrence (likes : List Like) (a b : String) : Nat :=
  (likes.flatMap (fun l1 =>
    likes.filter (fun l2 => l1.userId = l2.userId && l1.itemId = a && l2.itemId = b))).length

/-- `total_likes` of one item (the `item_totals` CTE counts all likes of
each in-scope item). -/
def totalLikes (likes : List Like) (iid : String) : Nat :=
  (likes.filter (fun l => l.itemId = iid)).length

/-- The distinct liked items, the domain the pair GROUP BY ranges over. -/
def likedItems (likes : List Like) : List String :=
  (likes.map (·.itemId)).dedup

/-- One candidate GROUP BY row of the incremental similarity query: kept
only for pairs in canonical text order touching a recent item, with
`HAVING COUNT(*) >= 2` and a score floor of `0.05`. -/
def simPairRow (likes : List Like) (recent : List String) (a b : String) :
    Option SimilarityRow :=
  if a < b ∧ (a ∈ recent ∨ b ∈ recent) then
    if 2 ≤ coOccurrence likes a b then
      if (1 : ℚ)/20 ≤ (coOccurrence likes a b : ℚ) /
          ((totalLikes likes a : ℚ) + (totalLikes likes b : ℚ)
            - (coOccurrence likes a b : ℚ)) then
        some ⟨a, b,
          (coOccurrence likes a b : ℚ) /
            ((totalLikes likes a : ℚ) + (totalLikes likes b : ℚ)
              - (coOccurrence likes a b : ℚ)),
          coOccurrence likes a b, totalLikes likes a, totalLikes likes b⟩
      else none
    else none
  else none

/-- `BackgroundJobs.update_item_similarities`: the rows the incremental
builder inserts, given the items with recent activity (`recent` stands for
the result of the recent-items query, whose 24-hour window is outside the
data model).  `ORDER BY similarity_score DESC LIMIT 5000` closes the query. -/
def update_item_similarities (likes : List Like) (recent : List String) :
    List SimilarityRow :=
  let items := likedItems likes
  (sortDescBy (·.similarity_score)
    (items.flatMap (fun a => items.filterMap (simPairRow likes recent a)))).take 5000

theorem simPairRow_spec {likes : List Like} {recent : List String} {a b : String}
    {row : SimilarityRow} (h : simPairRow likes recent a b = some row) :
    row.item_a = a ∧ row.item_b = b ∧
    row.item_a < row.item_b ∧
    2 ≤ row.co_occurrence_count ∧
    (1 : ℚ)/20 ≤ row.similarity_score ∧
    row.similarity_score = (row.co_occurrence_count : ℚ) /
      ((row.item_a_total_likes : ℚ) + (row.item_b_total_likes : ℚ)
        - (row.co_occurrence_count : ℚ)) := by
  unfold simPairRow at h
  split_ifs at h with h1 h2 h3
  cases h
  exact ⟨rfl, rfl, h1.1, h2, h3, rfl⟩

theorem mem_update_item_similarities {likes : List Like} {recent : List String}
    {row : SimilarityRow} (h : row ∈ update_item_similarities likes recent) :
    ∃ a b, simPairRow likes recent a b = some row := by
  unfold update_item_similarities at h
  have h1 : row ∈ sortDescBy (·.similarity_score)
      ((likedItems likes).flatMap (fun a =>
        (likedItems likes).filterMap (simPairRow likes recent a))) :=
    List.mem_of_mem_take h
  have h2 : row ∈ (likedItems likes).flatMap (fun a =>
      (likedItems likes).filterMap (simPairRow likes recent a)) :=
    (List.perm_insertionSort _ _).mem_iff.mp h1
  obtain ⟨a, _, ha⟩ := List.mem_flatMap.mp h2
  obtain ⟨b, _, hb⟩ := List.mem_filterMap.mp ha
  exact ⟨a, b, hb⟩

/-- C4: every stored incremental similarity row has the Jaccard score
`co / (total_a + total_b - co)`, satisfies the incremental thresholds
`co ≥ 2` and `score ≥ 0.05`, is in canonical order `item_a < item_b`, and
no reversed duplicate of it is stored. -/
theorem claim_C4_similarity_rows (likes : List Like) (recent : List String)
    (row : SimilarityRow) (h : row ∈ update_item_similarities likes recent) :
    row.similarity_score = (row.co_occurrence_count : ℚ) /
      ((row.item_a_total_likes : ℚ) + (row.item_b_total_likes : ℚ)
        - (row.co_occurrence_count : ℚ)) ∧
    2 ≤ row.co_occurrence_count ∧
    (1 : ℚ)/20 ≤ row.similarity_score ∧
    row.item_a < row.item_b ∧
    ∀ row2 ∈ update_item_similarities likes recent,
      ¬(row2.item_a = row.item_b ∧ row2.item_b = row.item_a) := by
  obtain ⟨a, b, hab⟩ := mem_update_item_similarities h
  obtain ⟨_, _, hlt, hco, hsc, hform⟩ := simPairRow_spec hab
  refine ⟨hform, hco, hsc, hlt, ?_⟩
  intro row2 h2 ⟨he1, he2⟩
  obtain ⟨a2, b2, hab2⟩ := mem_update_item_similarities h2
  obtain ⟨_, _, hlt2, -⟩ := simPairRow_spec hab2
  rw [he1, he2] at hlt2
  exact absurd hlt (lt_asymm hlt2)

def exLikesC4 : List Like :=
  [⟨"u", "a"⟩, ⟨"u", "b"⟩, ⟨"v", "a"⟩, ⟨"v", "b"⟩]

def rowExC4 : SimilarityRow := ⟨"a", "b", 1, 2, 2, 2⟩

theorem simPairRow_exC4_ab : simPairRow exLikesC4 ["a"] "a" "b" = some rowExC4 := by
  unfold simPairRow
  rw [show coOccurrence exLikesC4 "a" "b" = 2 from rfl,
      show totalLikes exLikesC4 "a" = 2 from rfl,
      show totalLikes exLikesC4 "b" = 2 from rfl]
  rw [if_pos ⟨by simp; decide, by decide⟩, if_pos (by decide), if_pos (by norm_num)]
  simp only [Option.some.injEq, rowExC4, SimilarityRow.mk.injEq]
  norm_num

theorem simPairRow_exC4_aa : simPairRow exLikesC4 ["a"] "a" "a" = none := by
  unfold simPairRow
  rw [if_neg]
  rintro ⟨h, -⟩
  simp at h

theorem simPairRow_exC4_ba : simPairRow exLikesC4 ["a"] "b" "a" = none := by
  unfold simPairRow
  rw [if_neg]
  rintro ⟨h, -⟩
  simp at h
  exact absurd h (by decide)

theorem simPairRow_exC4_bb : simPairRow exLikesC4 ["a"] "b" "b" = none := by
  unfold simPairRow
  rw [if_neg]
  rintro ⟨h, -⟩
  simp at h

theorem update_item_similarities_exC4 :
    update_item_similarities exLikesC4 ["a"] = [rowExC4] := by
  unfold update_item_similarities
  rw [show likedItems exLikesC4 = ["a", "b"] from rfl]
  simp only [List.flatMap_cons, List.flatMap_nil, List.filterMap_cons, List.filterMap_nil,
    simPairRow_exC4_aa, simPairRow_exC4_ab, simPairRow_exC4_ba, simPairRow_exC4_bb]
  rfl

/-- Witness for C4 at a concrete store: two users co-liking items
"a" and "b". -/
theorem claim_C4_similarity_rows_witness :
    (rowExC4 ∈ update_item_similarities exLikesC4 ["a"]) ∧
    rowExC4.similarity_score = (rowExC4.co_occurrence_count : ℚ) /
      ((rowExC4.item_a_total_likes : ℚ) + (rowExC4.item_b_total_likes : ℚ)
        - (rowExC4.co_occurrence_count : ℚ)) ∧
    2 ≤ rowExC4.co_occurrence_count ∧
    (1 : ℚ)/20 ≤ rowExC4.similarity_score ∧
    rowExC4.item_a < rowExC4.item_b := by
  have hm : rowExC4 ∈ update_item_similarities exLikesC4 ["a"] := by
    rw [update_item_similarities_exC4]
    exact List.mem_singleton_self _
  have h := claim_C4_similarity_rows exLikesC4 ["a"] rowExC4 hm
  exact ⟨hm, h.1, h.2.1, h.2.2.1, h.2.2.2.1⟩

/-! ## Profile Builder (`BackgroundJobs._update_single_user_profile`) -/

/-- One row of the profile query: a liked present's facet map, price and
platform (facets arrive already parsed, the read-boundary canonical form). -/
structure Interaction where
  categories : List (String × String)
  price : ℚ
  platform : String
  deriving DecidableEq

/-- Python `d[k] = d.get(k, 0) + 1` on an insertion-ordered dict. -/
def bumpCount : List (String × ℚ) → String → List (String × ℚ)
  | [], k => [(k, 1)]
  | p :: rest, k => if p.1 = k then (p.1, p.2 + 1) :: rest else p :: bumpCount rest k

/-- Count one interaction's facet value when it passes the
`if value and value != 'unknown'` guard. -/
def bumpFacet (m : List (String × ℚ)) (cats : List (String × String)) (k : String) :
    List (String × ℚ) :=
  match validFacet cats k with
  | some v => bumpCount m v
  | none => m

/-- The accumulator state of the profile loop. -/
structure RawProfile where
  category_preferences : List (String × ℚ)
  platform_preferences : List (String × ℚ)
  target_ages : List (String × ℚ)
  relationships : List (String × ℚ)
  gender_targets : List (String × ℚ)
  priceMin : Option ℚ
  priceMax : ℚ
  totalPrice : ℚ
  validPrices : Nat
  deriving DecidableEq

/-- The body of the `for interaction in interactions:` loop. -/
def stepInteraction (p : RawProfile) (i : Interaction) : RawProfile :=
  { category_preferences := bumpFacet p.category_preferences i.categories "category"
    platform_preferences :=
      if i.platform = "" then p.platform_preferences
      else bumpCount p.platform_preferences i.platform
    target_ages := bumpFacet p.target_ages i.categories "age"
    relationships := bumpFacet p.relationships i.categories "suitable_for"
    gender_targets := bumpFacet p.gender_targets i.categories "gender"
    priceMin :=
      if 0 < i.price then
        some (match p.priceMin with | some mn => min mn i.price | none => i.price)
      else p.priceMin
    priceMax := if 0 < i.price then max p.priceMax i.price else p.priceMax
    totalPrice := if 0 < i.price then p.totalPrice + i.price else p.totalPrice
    validPrices := if 0 < i.price then p.validPrices + 1 else p.validPrices }

/-- `total = sum(values()); if total > 0: divide every value by total`. -/
def normalizeMap (m : List (String × ℚ)) : List (String × ℚ) :=
  if 0 < sumVals m then m.map (fun p => (p.1, p.2 / sumVals m)) else m

/-- The profile row the builder upserts. -/
structure BuiltProfile where
  category_preferences : List (String × ℚ)
  platform_preferences : List (String × ℚ)
  buying_patterns_target_ages : List (String × ℚ)
  buying_patterns_relationships : List (String × ℚ)
  buying_patterns_gender_targets : List (String × ℚ)
  avg_price : ℚ
  price_range_min : Option ℚ
  price_range_max : ℚ
  interaction_count : Nat
  deriving DecidableEq

/-- `BackgroundJobs._update_single_user_profile` on the list of interactions
its profile query returns (most recent first, capped at 1000): `None` when
there are no interactions, otherwise the upserted row.  Only the category
and platform maps are normalized before the upsert. -/
def update_single_user_profile (interactions : List Interaction) : Option BuiltProfile :=
  if interactions.isEmpty then none
  else
    let raw := interactions.foldl stepInteraction ⟨[], [], [], [], [], none, 0, 0, 0⟩
    some
      { category_preferences := normalizeMap raw.category_preferences
        platform_preferences := normalizeMap raw.platform_preferences
        buying_patterns_target_ages := raw.target_ages
        buying_patterns_relationships := raw.relationships
        buying_patterns_gender_targets := raw.gender_targets
        avg_price := if 0 < raw.validPrices then raw.totalPrice / (raw.validPrices : ℚ) else 0
        price_range_min := if 0 < raw.validPrices then raw.priceMin else some 0
        price_range_max := if 0 < raw.validPrices then raw.priceMax else 0
        interaction_count := interactions.length }

/-- The claim's invariant: a map is a probability distribution over its
observed keys, or empty. -/
def isProbDist (m : List (String × ℚ)) : Prop :=
  m = [] ∨ sumVals m = 1

theorem sumVals_bumpCount (m : List (String × ℚ)) (k : String) :
    sumVals (bumpCount m k) = sumVals m + 1 := by
  induction m with
  | nil => simp [bumpCount, sumVals]
  | cons p rest ih =>
    by_cases h : p.1 = k
    · simp only [bumpCount, if_pos h, sumVals, List.map_cons, List.sum_cons] at *
      ring
    · simp only [bumpCount, if_neg h, sumVals, List.map_cons, List.sum_cons] at *
      rw [ih]
      ring

theorem pos_bumpCount {m : List (String × ℚ)} (hm : ∀ x ∈ m, 0 < x.2) (k : String) :
    ∀ x ∈ bumpCount m k, 0 < x.2 := by
  induction m with
  | nil =>
    intro x hx
    simp only [bumpCount, List.mem_singleton] at hx
    subst hx
    norm_num
  | cons p rest ih =>
    intro x hx
    by_cases h : p.1 = k
    · simp only [bumpCount, if_pos h, List.mem_cons] at hx
      rcases hx with hx | hx
      · subst hx
        have := hm p (by simp)
        positivity
      · exact hm x (List.mem_cons_of_mem _ hx)
    · simp only [bumpCount, if_neg h, List.mem_cons] at hx
      rcases hx with hx | hx
      · subst hx
        exact hm x (by simp)
      · exact ih (fun y hy => hm y (List.mem_cons_of_mem _ hy)) x hx

theorem sumVals_bumpFacet (m : List (String × ℚ)) (cats : List (String × String))
    (k : String) :
    sumVals (bumpFacet m cats k)
      = sumVals m + (if (validFacet cats k).isSome then 1 else 0) := by
  unfold bumpFacet
  cases h : validFacet cats k <;> simp [h, sumVals_bumpCount]

theorem pos_bumpFacet {m : List (String × ℚ)} (hm : ∀ x ∈ m, 0 < x.2)
    (cats : List (String × String)) (k : String) :
    ∀ x ∈ bumpFacet m cats k, 0 < x.2 := by
  unfold bumpFacet
  cases h : validFacet cats k
  · exact hm
  · exact pos_bumpCount hm _

theorem sumVals_nonneg {m : List (String × ℚ)} (hm : ∀ x ∈ m, 0 < x.2) :
    0 ≤ sumVals m := by
  induction m with
  | nil => simp [sumVals]
  | cons p rest ih =>
    simp only [sumVals, List.map_cons, List.sum_cons]
    have h1 := hm p (by simp)
    have h2 := ih (fun y hy => hm y (List.mem_cons_of_mem _ hy))
    simp only [sumVals] at h2
    linarith

theorem sumVals_pos_of_ne_nil {m : List (String × ℚ)} (hm : ∀ x ∈ m, 0 < x.2)
    (hne : m ≠ []) : 0 < sumVals m := by
  cases m with
  | nil => exact absurd rfl hne
  | cons p rest =>
    simp only [sumVals, List.map_cons, List.sum_cons]
    have h1 := hm p (by simp)
    have h2 := sumVals_nonneg (fun y hy => hm y (List.mem_cons_of_mem _ hy))
    simp only [sumVals] at h2
    linarith

theorem sumVals_map_div (m : List (String × ℚ)) (c : ℚ) :
    sumVals (m.map (fun p => (p.1, p.2 / c))) = sumVals m / c := by
  induction m with
  | nil => simp [sumVals]
  | cons p rest ih =>
    simp only [sumVals, List.map_cons, List.sum_cons] at *
    rw [ih]
    ring

theorem isProbDist_normalizeMap (m : List (String × ℚ)) (hm : ∀ x ∈ m, 0 < x.2) :
    isProbDist (normalizeMap m) := by
  unfold normalizeMap
  by_cases h : 0 < sumVals m
  · right
    rw [if_pos h, sumVals_map_div]
    exact div_self (ne_of_gt h)
  · left
    rw [if_neg h]
    by_contra hne
    exact h (sumVals_pos_of_ne_nil hm hne)

theorem foldl_step_target_ages (l : List Interaction) (acc : RawProfile) :
    (l.foldl stepInteraction acc).target_ages
      = l.foldl (fun m i => bumpFacet m i.categories "age") acc.target_ages := by
  induction l generalizing acc with
  | nil => rfl
  | cons i rest ih => simp only [List.foldl_cons, ih, stepInteraction]

theorem foldl_step_relationships (l : List Interaction) (acc : RawProfile) :
    (l.foldl stepInteraction acc).relationships
      = l.foldl (fun m i => bumpFacet m i.categories "suitable_for") acc.relationships := by
  induction l generalizing acc with
  | nil => rfl
  | cons i rest ih => simp only [List.foldl_cons, ih, stepInteraction]

theorem foldl_step_gender_targets (l : List Interaction) (acc : RawProfile) :
    (l.foldl stepInteraction acc).gender_targets
      = l.foldl (fun m i => bumpFacet m i.categories "gender") acc.gender_targets := by
  induction l generalizing acc with
  | nil => rfl
  | cons i rest ih => simp only [List.foldl_cons, ih, stepInteraction]

theorem foldl_step_category (l : List Interaction) (acc : RawProfile) :
    (l.foldl stepInteraction acc).category_preferences
      = l.foldl (fun m i => bumpFacet m i.categories "category") acc.category_preferences := by
  induction l generalizing acc with
  | nil => rfl
  | cons i rest ih => simp only [List.foldl_cons, ih, stepInteraction]

theorem foldl_step_platform (l : List Interaction) (acc : RawProfile) :
    (l.foldl stepInteraction acc).platform_preferences
      = l.foldl (fun m i => if i.platform = "" then m else bumpCount m i.platform)
          acc.platform_preferences := by
  induction l generalizing acc with
  | nil => rfl
  | cons i rest ih => simp only [List.foldl_cons, ih, stepInteraction]

theorem sumVals_foldl_bumpFacet (l : List Interaction) (k : String)
    (m0 : List (String × ℚ)) :
    sumVals (l.foldl (fun m i => bumpFacet m i.categories k) m0)
      = sumVals m0 + (l.countP (fun i => (validFacet i.categories k).isSome) : ℚ) := by
  induction l generalizing m0 with
  | nil => simp
  | cons i rest ih =>
    simp only [List.foldl_cons, ih, sumVals_bumpFacet, List.countP_cons]
    by_cases h : (validFacet i.categories k).isSome <;> simp [h] <;> push_cast <;> ring

theorem pos_foldl_bumpFacet (l : List Interaction) (k : String)
    {m0 : List (String × ℚ)} (h0 : ∀ x ∈ m0, 0 < x.2) :
    ∀ x ∈ l.foldl (fun m i => bumpFacet m i.categories k) m0, 0 < x.2 := by
  induction l generalizing m0 with
  | nil => exact h0
  | cons i rest ih => exact ih (pos_bumpFacet h0 _ _)

theorem pos_foldl_platform (l : List Interaction)
    {m0 : List (String × ℚ)} (h0 : ∀ x ∈ m0, 0 < x.2) :
    ∀ x ∈ l.foldl (fun m i => if i.platform = "" then m else bumpCount m i.platform) m0,
      0 < x.2 := by
  induction l generalizing m0 with
  | nil => exact h0
  | cons i rest ih =>
    by_cases h : i.platform = ""
    · simp only [List.foldl_cons, if_pos h]
      exact ih h0
    · simp only [List.foldl_cons, if_neg h]
      exact ih (pos_bumpCount h0 _)

/-- C5 (amended): the category and platform preference maps written by the
Profile Builder are probability distributions (they sum to 1 over their
observed keys, or are empty), while the three buying-pattern maps hold raw
counts: their values sum to the number of interactions carrying the
corresponding valid facet, not to 1. -/
theorem claim_C5_profile_distributions (interactions : List Interaction)
    (p : BuiltProfile) (h : update_single_user_profile interactions = some p) :
    isProbDist p.category_preferences ∧
    isProbDist p.platform_preferences ∧
    sumVals p.buying_patterns_target_ages
      = (interactions.countP (fun i => (validFacet i.categories "age").isSome) : ℚ) ∧
    sumVals p.buying_patterns_relationships
      = (interactions.countP (fun i => (validFacet i.categories "suitable_for").isSome) : ℚ) ∧
    sumVals p.buying_patterns_gender_targets
      = (interactions.countP (fun i => (validFacet i.categories "gender").isSome) : ℚ) := by
  unfold update_single_user_profile at h
  split_ifs at h
  cases h
  refine ⟨?_, ?_, ?_, ?_, ?_⟩
  · exact isProbDist_normalizeMap _ (by
      rw [foldl_step_category]
      exact pos_foldl_bumpFacet _ _ (by simp))
  · exact isProbDist_normalizeMap _ (by
      rw [foldl_step_platform]
      exact pos_foldl_platform _ (by simp))
  · show sumVals (interactions.foldl stepInteraction _).target_ages = _
    rw [foldl_step_target_ages, sumVals_foldl_bumpFacet]
    simp [sumVals]
  · show sumVals (interactions.foldl stepInteraction _).relationships = _
    rw [foldl_step_relationships, sumVals_foldl_bumpFacet]
    simp [sumVals]
  · show sumVals (interactions.foldl stepInteraction _).gender_targets = _
    rw [foldl_step_gender_targets, sumVals_foldl_bumpFacet]
    simp [sumVals]

def exInteractionsC5 : List Interaction :=
  [⟨[("age", "18-24")], 0, ""⟩, ⟨[("age", "18-24")], 0, ""⟩]

/-- C5 counterexample: a user whose two liked items both target age
"18-24" gets the buying-pattern map `{"18-24": 2}`, which is nonempty and
sums to 2, not 1 — the builder normalizes only the category and platform
maps, never the three buying-pattern maps. -/
theorem claim_C5_counterexample :
    (update_single_user_profile exInteractionsC5).map (·.buying_patterns_target_ages)
      = some [("18-24", 2)] ∧
    ¬ isProbDist [("18-24", (2 : ℚ))] := by
  constructor
  · have h : (update_single_user_profile exInteractionsC5).map (·.buying_patterns_target_ages)
        = some [("18-24", (1 : ℚ) + 1)] := rfl
    rw [h]
    simp only [Option.some.injEq, List.cons.injEq, Prod.mk.injEq]
    norm_num
  · unfold isProbDist sumVals
    norm_num

def profileExC5 : BuiltProfile :=
  { category_preferences := []
    platform_preferences := []
    buying_patterns_target_ages := [("18-24", 2)]
    buying_patterns_relationships := []
    buying_patterns_gender_targets := []
    avg_price := 0
    price_range_min := some 0
    price_range_max := 0
    interaction_count := 2 }

/-- Witness for the amended C5 at the concrete two-interaction history. -/
theorem claim_C5_profile_distributions_witness :
    isProbDist profileExC5.category_preferences ∧
    isProbDist profileExC5.platform_preferences ∧
    sumVals profileExC5.buying_patterns_target_ages
      = (exInteractionsC5.countP (fun i => (validFacet i.categories "age").isSome) : ℚ) ∧
    sumVals profileExC5.buying_patterns_relationships
      = (exInteractionsC5.countP
          (fun i => (validFacet i.categories "suitable_for").isSome) : ℚ) ∧
    sumVals profileExC5.buying_patterns_gender_targets
      = (exInteractionsC5.countP (fun i => (validFacet i.categories "gender").isSome) : ℚ) := by
  have h : update_single_user_profile exInteractionsC5 = some profileExC5 := by
    have h1 : update_single_user_profile exInteractionsC5
        = some { profileExC5 with buying_patterns_target_ages := [("18-24", (1 : ℚ) + 1)] } :=
      rfl
    rw [h1]
    simp only [Option.some.injEq, BuiltProfile.mk.injEq, profileExC5]
    norm_num
  exact claim_C5_profile_distributions exInteractionsC5 profileExC5 h

/-! ## Popularity Builder (`BackgroundJobs.refresh_popular_items`,
`FullSyncManager._full_popular_items_refresh`) -/

/-- All-time click score of one item: `COUNT(*) * 1.0` over its click rows. -/
def clickScore (m : MainDB) (iid : String) : ℚ :=
  ((m.clicks.filter (fun c => c = iid)).length : ℚ)

/-- All-time like score of one item: `COUNT(*) * 3.0` over its like rows. -/
def likeScoreOf (m : MainDB) (iid : String) : ℚ :=
  ((m.likes.filter (fun l => l.itemId = iid)).length : ℚ) * 3

/-- The `popular_items` row computed for one present: segments come from
the item's own facets with `COALESCE(..., 'any')`. -/
def popRowOfItem (m : MainDB) (it : Item) : PopularRow :=
  { geoId := it.geoId
    gender := (facetGet it.categories "gender").getD "any"
    ageGroup := (facetGet it.categories "age").getD "any"
    category := (facetGet it.categories "category").getD "any"
    itemId := it.itemId
    score := clickScore m it.itemId + likeScoreOf m it.itemId }

/-- The popularity query shared by both builder variants: in-stock public
presents with a positive score, ordered by score descending, capped at
`lim` rows (10000 for the periodic refresh, 50000 for full sync). -/
def computePopularRows (m : MainDB) (lim : Nat) : List PopularRow :=
  (sortDescBy (·.score)
    (((m.presents.filter (fun it => it.status = "in_stock" && it.ownerId = none)).map
        (popRowOfItem m)).filter (fun row => decide (0 < row.score)))).take lim

/-- A stored `popular_items` row with its `updated_at` stamp (seconds). -/
structure StoredPopularRow where
  row : PopularRow
  updatedAt : Nat
  deriving DecidableEq

/-- Modelled from the spec: the unique key of `popular_items` — "one row
per (geo × demographic segment × item)" (§3) — whose defining
`schema_minimal.sql` is not part of the sources; `ON CONFLICT DO NOTHING`
skips an insert that violates it. -/
def popKey (r : PopularRow) : Int × String × String × String × String :=
  (r.geoId, r.gender, r.ageGroup, r.category, r.itemId)

/-- The batch `INSERT ... ON CONFLICT DO NOTHING` of the periodic refresh:
rows are appended in order, skipping any row whose key is already present. -/
def insertIgnore (store : List StoredPopularRow) (rows : List PopularRow) (now : Nat) :
    List StoredPopularRow :=
  rows.foldl
    (fun acc r =>
      if acc.any (fun t => popKey t.row = popKey r) then acc else acc ++ [⟨r, now⟩])
    store

/-- `BackgroundJobs.refresh_popular_items`: delete rows older than one hour,
then insert the freshly computed rows with conflict-ignore. -/
def refresh_popular_items (m : MainDB) (store : List StoredPopularRow) (now : Nat) :
    List StoredPopularRow :=
  insertIgnore (store.filter (fun t => !decide (t.updatedAt + 3600 < now)))
    (computePopularRows m 10000) now

/-- `FullSyncManager`: step 1 (`_clear_old_data`) deletes every
`popular_items` row, step 2 (`_full_popular_items_refresh`) inserts the
freshly computed ones, so the resulting store ignores its previous state. -/
def full_popular_items_refresh (m : MainDB) (_store : List StoredPopularRow) (now : Nat) :
    List StoredPopularRow :=
  (computePopularRows m 50000).map (fun r => ⟨r, now⟩)

theorem mem_insertIgnore {store : List StoredPopularRow} {rows : List PopularRow}
    {now : Nat} {x : StoredPopularRow} (h : x ∈ insertIgnore store rows now) :
    x ∈ store ∨ x.updatedAt = now := by
  induction rows generalizing store with
  | nil => exact Or.inl h
  | cons r rest ih =>
    unfold insertIgnore at h
    simp only [List.foldl_cons] at h
    rcases ih h with hx | hx
    · by_cases hc : store.any (fun t => popKey t.row = popKey r)
      · rw [if_pos hc] at hx
        exact Or.inl hx
      · rw [if_neg hc] at hx
        rcases List.mem_append.mp hx with hx | hx
        · exact Or.inl hx
        · simp only [List.mem_singleton] at hx
          subst hx
          exact Or.inr rfl
    · exact Or.inr hx

theorem any_key_insertIgnore {store : List StoredPopularRow} {rows : List PopularRow}
    {now : Nat} {k : Int × String × String × String × String}
    (h : store.any (fun t => popKey t.row = k) = true) :
    (insertIgnore store rows now).any (fun t => popKey t.row = k) = true := by
  induction rows generalizing store with
  | nil => exact h
  | cons r rest ih =>
    unfold insertIgnore
    simp only [List.foldl_cons]
    apply ih
    by_cases hc : store.any (fun t => popKey t.row = popKey r)
    · rwa [if_pos hc]
    · rw [if_neg hc, List.any_append, h]
      rfl

theorem all_keys_present_insertIgnore (store : List StoredPopularRow)
    (rows : List PopularRow) (now : Nat) :
    ∀ r ∈ rows, (insertIgnore store rows now).any
      (fun t => popKey t.row = popKey r) = true := by
  induction rows generalizing store with
  | nil => intro r hr; cases hr
  | cons r0 rest ih =>
    intro r hr
    unfold insertIgnore
    simp only [List.foldl_cons]
    rcases List.mem_cons.mp hr with hr | hr
    · subst hr
      by_cases hc : store.any (fun t => popKey t.row = popKey r)
      · rw [if_pos hc]
        exact any_key_insertIgnore hc
      · rw [if_neg hc]
        apply any_key_insertIgnore
        rw [List.any_append]
        simp
    · exact ih _ r hr

theorem insertIgnore_no_op {store : List StoredPopularRow} {rows : List PopularRow}
    {now : Nat}
    (h : ∀ r ∈ rows, store.any (fun t => popKey t.row = popKey r) = true) :
    insertIgnore store rows now = store := by
  induction rows generalizing store with
  | nil => rfl
  | cons r rest ih =>
    unfold insertIgnore
    simp only [List.foldl_cons]
    rw [if_pos (h r (by simp))]
    exact ih (fun r2 h2 => h r2 (List.mem_cons_of_mem _ h2))

/-- C8: running the Popularity Builder twice in a row on unchanged
interaction data yields the same rows — the full-sync bootstrap is exactly
idempotent modulo `updated_at` because it deletes all rows before
inserting, and a second periodic refresh leaves the store untouched, since
every freshly computed row already conflicts with a row of the first run. -/
theorem claim_C8_popularity_builder_idempotent (m : MainDB)
    (s : List StoredPopularRow) (now now2 : Nat) :
    (full_popular_items_refresh m (full_popular_items_refresh m s now) now2).map (·.row)
      = (full_popular_items_refresh m s now).map (·.row) ∧
    refresh_popular_items m (refresh_popular_items m s now) now
      = refresh_popular_items m s now := by
  constructor
  · unfold full_popular_items_refresh
    simp [List.map_map, Function.comp]
  · unfold refresh_popular_items
    have hfilter :
        ((insertIgnore (s.filter (fun t => !decide (t.updatedAt + 3600 < now)))
            (computePopularRows m 10000) now).filter
          (fun t => !decide (t.updatedAt + 3600 < now)))
        = insertIgnore (s.filter (fun t => !decide (t.updatedAt + 3600 < now)))
            (computePopularRows m 10000) now := by
      apply List.filter_eq_self.mpr
      intro x hx
      rcases mem_insertIgnore hx with hx2 | hx2
      · exact (List.mem_filter.mp hx2).2
      · simp [hx2]
    rw [hfilter]
    exact insertIgnore_no_op (fun r hr => all_keys_present_insertIgnore _ _ now r hr)

/-! ## Serving layer: shared queries -/

/-- `_get_user_likes`: the user's liked item ids. -/
def get_user_likes (m : MainDB) (uid : String) : List String :=
  (m.likes.filter (fun l => l.userId = uid)).map (·.itemId)

/-- `_get_user_profile`: the user's derived profile row, if any. -/
def get_user_profile (r : RecDB) (uid : String) : Option UserProfileRow :=
  r.userProfiles.find? (fun p => p.user_id = uid)

/-- Like count of one item (`COUNT` over `handpicked_likes`). -/
def likeCount (m : MainDB) (iid : String) : Nat :=
  (m.likes.filter (fun l => l.itemId = iid)).length

/-! ## Collaborative path
(`_get_collaborative_recommendations_via_items`) -/

/-- The minimum similarity threshold `0.1` of the collaborative lookup, as
a normalized rational literal (see `simThreshold_eq`). -/
def simThreshold : ℚ := ⟨1, 10, by decide, by decide⟩

theorem simThreshold_eq : simThreshold = (1 : ℚ)/10 := by
  rw [simThreshold, Rat.mk'_eq_divInt, Rat.divInt_eq_div]
  norm_num

/-- The `item_similarities` lookup: rows touching a liked item with score
at least 0.1, ordered by score descending, capped at 200, each projected to
(the CASE-selected partner item, its score). -/
def similarItemRows (r : RecDB) (likes : List String) : List (String × ℚ) :=
  ((sortDescBy (·.similarity_score)
      (r.itemSimilarities.filter (fun s =>
        (likes.contains s.item_a || likes.contains s.item_b) &&
        decide (simThreshold ≤ s.similarity_score)))).take 200).map
    (fun s => (if likes.contains s.item_a then s.item_b else s.item_a, s.similarity_score))

/-- Python `item_scores[item] += score` with implicit 0 start, on an
insertion-ordered dict. -/
def bumpBy : List (String × ℚ) → String → ℚ → List (String × ℚ)
  | [], k, v => [(k, v)]
  | p :: rest, k, v => if p.1 = k then (p.1, p.2 + v) :: rest else p :: bumpBy rest k v

/-- The similarity-weight accumulation over all matched rows. -/
def itemScores (rows : List (String × ℚ)) : List (String × ℚ) :=
  rows.foldl (fun acc kv => bumpBy acc kv.1 kv.2) []

/-- `sorted(item_scores.items(), reverse=True)[:100]`, keeping the ids. -/
def topCandidates (rows : List (String × ℚ)) : List String :=
  ((sortDescBy (·.2) (itemScores rows)).map (·.1)).take 100

/-- The candidate re-validation query: same geo, in stock, public, not
already liked (the likes condition is skipped when the list is empty, as
the SQL parameter is NULL then), ordered by like-count boost, capped at
100. -/
def validateCollab (m : MainDB) (cand : List String) (geo : Int) (likes : List String) :
    List String :=
  (((sortDescBy (fun it => likeCount m it.itemId)
      (m.presents.filter (fun it =>
        cand.contains it.itemId && it.geoId = geo && it.status = "in_stock" &&
        it.ownerId = none && (likes.isEmpty || !likes.contains it.itemId)))).map
    (·.itemId)).take 100)

/-- The popularity top-up query: public in-stock same-geo presents outside
the excluded set, by like count descending, capped at `n`. -/
def popularFill (m : MainDB) (geo : Int) (excluded : List String) (n : Nat) :
    List String :=
  (((sortDescBy (fun it => likeCount m it.itemId)
      (m.presents.filter (fun it =>
        it.geoId = geo && it.status = "in_stock" && it.ownerId = none &&
        !excluded.contains it.itemId))).map (·.itemId)).take n)

/-- `RecommendationServiceV2._get_collaborative_recommendations_via_items`. -/
def get_collaborative_recommendations_via_items (m : MainDB) (r : RecDB)
    (geo : Int) (likes : List String) : List String :=
  if likes.isEmpty then []
  else
    let simRows := similarItemRows r likes
    if simRows.isEmpty then []
    else
      let collab := validateCollab m (topCandidates simRows) geo likes
      if collab.length < 100 then
        collab ++ popularFill m geo (collab ++ likes) (100 - collab.length)
      else collab

/-! ## Popularity fallback (`_get_fallback_popular_items`) -/

/-- The demographics payload cached by the Rails sync
(`user_demographics:<user_id>`). -/
structure Demographics where
  gender : Option String
  age_group : Option String
  deriving DecidableEq

/-- The demographics cache read, as a total function standing for
`db.cache_get`. -/
abbrev DemoCache := String → Option Demographics

/-- One variant's `popular_items` query: the gender condition is always
emitted with the variant's value, the age condition only when the variant's
age is not "any"; ordered by score descending, capped at 100. -/
def popularVariantQuery (r : RecDB) (geo : Int) (g a : String) : List String :=
  (((sortDescBy (·.score)
      (r.popularItems.filter (fun row =>
        row.geoId = geo && row.gender = g &&
        (a = "any" || row.ageGroup = a)))).map (·.itemId)).take 100)

/-- The in-stock re-check of the fallback path
(`ORDER BY array_position` keeps the popularity order). -/
def stockFilter (m : MainDB) (ids : List String) : List String :=
  ids.filter (fun iid =>
    m.presents.any (fun it =>
      it.itemId = iid && it.status = "in_stock" && it.ownerId = none))

/-- One loop iteration of the fallback chain: empty popular rows mean
`continue`, otherwise the stock-filtered items are the variant's result
(an empty result also means `continue`). -/
def variantResult (m : MainDB) (r : RecDB) (geo : Int) (g a : String) : List String :=
  let pop := popularVariantQuery r geo g a
  if pop.isEmpty then [] else stockFilter m pop

/-- The fallback chain built from cached demographics: exact, gender-only
and age-only variants for the truthy fields, then always the generic one. -/
def queryVariants (d : Option Demographics) : List (String × String) :=
  (match d with
   | some dd =>
     (match truthy dd.gender, truthy dd.age_group with
      | some g, some a => [(g, a), (g, "any"), ("any", a)]
      | some g, none => [(g, "any")]
      | none, some a => [("any", a)]
      | none, none => [])
   | none => []) ++ [("any", "any")]

/-- The first variant that yields items wins. -/
def firstNonEmpty : List (List String) → List String
  | [] => []
  | l :: ls => if l.isEmpty then firstNonEmpty ls else l

/-- `RecommendationServiceV2._get_fallback_popular_items`.  The
`user_likes` argument is accepted and ignored, exactly as in the source. -/
def get_fallback_popular_items (m : MainDB) (r : RecDB) (cache : DemoCache)
    (geo : Int) (user_likes : List String) (uid : Option String) : List String :=
  let demo := match uid with | some u => cache u | none => none
  firstNonEmpty ((queryVariants demo).map (fun ga => variantResult m r geo ga.1 ga.2))

/-! ## Content-based path (`_get_content_based_recommendations`,
`ContentBasedFilter.calculate_item_score`) -/

/-- `ContentBasedFilter.calculate_item_score` with exact rationals; `now`
is the current time in days (for the recency bonus, whose integer day
count floors the difference). -/
def calculate_item_score (it : Item) (p : UserProfileRow) (now : ℚ) : ℚ :=
  let s1 : ℚ :=
    match validFacet it.categories "category" with
    | some c =>
      match lookupQ p.preferred_categories ("category:" ++ c) with
      | some w => 3/10 * w
      | none => 0
    | none => 0
  let s2 : ℚ :=
    match validFacet it.categories "age" with
    | some v =>
      if p.buying_patterns_target_ages.isEmpty then 0
      else
        match lookupQ p.buying_patterns_target_ages v with
        | some w => 3/20 * w
        | none => 0
    | none => 0
  let s3 : ℚ :=
    match validFacet it.categories "suitable_for" with
    | some v =>
      if p.buying_patterns_relationships.isEmpty then 0
      else
        match lookupQ p.buying_patterns_relationships v with
        | some w => 3/20 * w
        | none => 0
    | none => 0
  let s4 : ℚ :=
    match validFacet it.categories "gender" with
    | some v =>
      if p.buying_patterns_gender_targets.isEmpty then 0
      else
        match lookupQ p.buying_patterns_gender_targets v with
        | some w => 1/10 * w
        | none =>
          match lookupQ p.buying_patterns_gender_targets "any" with
          | some w => 1/20 * w
          | none => 0
    | none => 0
  let s5 : ℚ :=
    match lookupQ p.preferred_platforms it.platform with
    | some w => 3/20 * w
    | none => 0
  let avgPrice : ℚ := match p.avg_price with | some a => a | none => 0
  let s6 : ℚ :=
    if 0 < avgPrice ∧ 0 < it.price then
      1/10 * max 0 (1 - |it.price - avgPrice| / avgPrice)
    else 0
  let s7 : ℚ := 1/20 * max 0 (1 - ((Int.floor (now - it.createdAt) : ℚ) / 365))
  min (s1 + s2 + s3 + s4 + s5 + s6 + s7) 1

/-- The candidate query of the content-based path: in-stock public
same-geo presents excluding liked ones, newest first, capped at 500. -/
def contentCandidates (m : MainDB) (geo : Int) (likes : List String) : List Item :=
  (sortDescBy (·.createdAt)
    (m.presents.filter (fun it =>
      it.geoId = geo && it.status = "in_stock" && it.ownerId = none &&
      (likes.isEmpty || !likes.contains it.itemId)))).take 500

/-- `RecommendationServiceV2._get_content_based_recommendations`: empty
candidates fall through to the popularity fallback; otherwise each
candidate is scored, kept above the 0.05 floor, sorted by score and capped
at 100. -/
def get_content_based_recommendations (m : MainDB) (r : RecDB) (cache : DemoCache)
    (uid : String) (geo : Int) (likes : List String) (p : UserProfileRow) (now : ℚ) :
    List String :=
  let cand := contentCandidates m geo likes
  if cand.isEmpty then get_fallback_popular_items m r cache geo likes (some uid)
  else
    let scored := (cand.map (fun it => (it.itemId, calculate_item_score it p now))).filter
      (fun x => decide ((1 : ℚ)/20 < x.2))
    ((sortDescBy (·.2) scored).map (·.1)).take 100

/-! ## Tier dispatch and response
(`get_personalized_recommendations`) -/

/-- The tier selection and candidate computation of
`get_personalized_recommendations` (the body between the profile read and
the filter application), returning the candidates and `algorithm_used`. -/
def dispatchPersonalized (m : MainDB) (r : RecDB) (cache : DemoCache)
    (req : PersonalizedRequest) (now : ℚ) : List String × String :=
  let likes := get_user_likes m req.user_id
  match get_user_profile r req.user_id with
  | some p =>
    if 3 ≤ p.interaction_count then
      let collab := get_collaborative_recommendations_via_items m r req.geo_id likes
      if collab.isEmpty then
        (get_content_based_recommendations m r cache req.user_id req.geo_id likes p now,
         "collaborative_fallback_content")
      else (collab, "collaborative")
    else if 0 < p.interaction_count then
      (get_content_based_recommendations m r cache req.user_id req.geo_id likes p now,
       "content_based")
    else
      (get_fallback_popular_items m r cache req.geo_id likes (some req.user_id),
       "popular_fallback")
  | none =>
    (get_fallback_popular_items m r cache req.geo_id likes (some req.user_id),
     "popular_fallback")

/-- The cache-miss computation of
`RecommendationServiceV2.get_personalized_recommendations`: dispatch, then
live filters, then pagination over the filtered list. -/
def get_personalized_recommendations (m : MainDB) (r : RecDB) (cache : DemoCache)
    (req : PersonalizedRequest) (now : ℚ) : RecommendationResponse :=
  let da := dispatchPersonalized m r cache req now
  let filtered := apply_filters m da.1 req.filters req.geo_id
  { items := pageSlice filtered req.page req.limit
    pagination := buildPagination filtered.length req.page req.limit
    algorithm_used := da.2 }

/-! ## C1: tier selection -/

/-- C1: the algorithm tier is selected by the stored interaction count —
no profile or a zero count uses the popularity fallback, one or two
interactions use the content-based path, three or more the collaborative
path, with a one-shot downgrade to the content-based path when the
collaborative candidate list is empty, `algorithm_used` naming the tier
actually used in each case. -/
theorem claim_C1_tier_selection (m : MainDB) (r : RecDB) (cache : DemoCache)
    (req : PersonalizedRequest) (now : ℚ) :
    (get_user_profile r req.user_id = none →
      dispatchPersonalized m r cache req now
        = (get_fallback_popular_items m r cache req.geo_id
            (get_user_likes m req.user_id) (some req.user_id), "popular_fallback")) ∧
    (∀ p, get_user_profile r req.user_id = some p → p.interaction_count = 0 →
      dispatchPersonalized m r cache req now
        = (get_fallback_popular_items m r cache req.geo_id
            (get_user_likes m req.user_id) (some req.user_id), "popular_fallback")) ∧
    (∀ p, get_user_profile r req.user_id = some p →
      1 ≤ p.interaction_count → p.interaction_count ≤ 2 →
      dispatchPersonalized m r cache req now
        = (get_content_based_recommendations m r cache req.user_id req.geo_id
            (get_user_likes m req.user_id) p now, "content_based")) ∧
    (∀ p, get_user_profile r req.user_id = some p → 3 ≤ p.interaction_count →
      (get_collaborative_recommendations_via_items m r req.geo_id
          (get_user_likes m req.user_id) ≠ [] →
        dispatchPersonalized m r cache req now
          = (get_collaborative_recommendations_via_items m r req.geo_id
              (get_user_likes m req.user_id), "collaborative")) ∧
      (get_collaborative_recommendations_via_items m r req.geo_id
          (get_user_likes m req.user_id) = [] →
        dispatchPersonalized m r cache req now
          = (get_content_based_recommendations m r cache req.user_id req.geo_id
              (get_user_likes m req.user_id) p now,
             "collaborative_fallback_content"))) := by
  refine ⟨?_, ?_, ?_, ?_⟩
  · intro h
    simp only [dispatchPersonalized, h]
  · intro p hp hc
    simp only [dispatchPersonalized, hp]
    rw [if_neg (by omega), if_neg (by omega)]
  · intro p hp h1 h2
    simp only [dispatchPersonalized, hp]
    rw [if_neg (by omega), if_pos (by omega)]
  · intro p hp h3
    constructor
    · intro hne
      simp only [dispatchPersonalized, hp]
      rw [if_pos h3, if_neg (by simp [hne])]
    · intro heq
      simp only [dispatchPersonalized, hp]
      rw [if_pos h3, if_pos (by simp [heq])]

/-! ## C2: collaborative top-up -/

theorem nodup_filterSortTakeMap (ps : List Item) (q : Item → Bool)
    (key : Item → Nat) (n : Nat) (h : (ps.map (·.itemId)).Nodup) :
    (((sortDescBy key (ps.filter q)).map (·.itemId)).take n).Nodup := by
  apply List.Nodup.sublist (List.take_sublist _ _)
  have hperm : List.Perm (sortDescBy key (ps.filter q)) (ps.filter q) :=
    List.perm_insertionSort _ _
  have hsub : ((ps.filter q).map (·.itemId)).Sublist (ps.map (·.itemId)) :=
    (List.filter_sublist _).map _
  exact ((hperm.map (·.itemId)).nodup_iff).mpr (hsub.nodup h)

theorem mem_filterSortTakeMap {ps : List Item} {q : Item → Bool}
    {key : Item → Nat} {n : Nat} {x : String}
    (h : x ∈ ((sortDescBy key (ps.filter q)).map (·.itemId)).take n) :
    ∃ it, it ∈ ps ∧ q it = true ∧ it.itemId = x := by
  have h1 := List.mem_of_mem_take h
  obtain ⟨it, hit, hx⟩ := List.mem_map.mp h1
  have h2 : it ∈ ps.filter q := (List.perm_insertionSort _ _).mem_iff.mp hit
  exact ⟨it, (List.mem_filter.mp h2).1, (List.mem_filter.mp h2).2, hx⟩

theorem mem_validateCollab_not_lik {m : MainDB} {cand likes : List String}
    {geo : Int} {x : String} (hne : likes ≠ [])
    (h : x ∈ validateCollab m cand geo likes) : x ∉ likes := by
  obtain ⟨it, -, hq, hx⟩ := mem_filterSortTakeMap h
  subst hx
  simp only [Bool.and_eq_true, Bool.or_eq_true, Bool.not_eq_true',
    List.isEmpty_iff, decide_eq_true_eq] at hq
  rcases hq.2 with h2 | h2
  · exact absurd h2 hne
  · simp at h2
    exact h2

theorem mem_popularFill_excluded {m : MainDB} {geo : Int}
    {excluded : List String} {n : Nat} {x : String}
    (h : x ∈ popularFill m geo excluded n) : x ∉ excluded := by
  obtain ⟨it, -, hq, hx⟩ := mem_filterSortTakeMap h
  subst hx
  have h2 : excluded.contains it.itemId = false := by
    simp only [Bool.and_eq_true, Bool.not_eq_true'] at hq
    exact hq.2
  simp at h2
  exact h2

/-- C2: when the validated collaborative candidates are fewer than the
100-item fill target, the returned list is exactly the collaborative items
followed by the popularity fill, without duplicate ids and without any of
the user's liked items. -/
theorem claim_C2_collaborative_top_up (m : MainDB) (r : RecDB) (geo : Int)
    (likes : List String)
    (hids : (m.presents.map (·.itemId)).Nodup)
    (hlikes : likes ≠ [])
    (hsim : similarItemRows r likes ≠ [])
    (hshort : (validateCollab m (topCandidates (similarItemRows r likes)) geo likes).length
      < 100) :
    get_collaborative_recommendations_via_items m r geo likes
      = validateCollab m (topCandidates (similarItemRows r likes)) geo likes
        ++ popularFill m geo
            (validateCollab m (topCandidates (similarItemRows r likes)) geo likes ++ likes)
            (100 - (validateCollab m (topCandidates (similarItemRows r likes)) geo
                likes).length) ∧
    (get_collaborative_recommendations_via_items m r geo likes).Nodup ∧
    ∀ x ∈ get_collaborative_recommendations_via_items m r geo likes, x ∉ likes := by
  have heq : get_collaborative_recommendations_via_items m r geo likes
      = validateCollab m (topCandidates (similarItemRows r likes)) geo likes
        ++ popularFill m geo
            (validateCollab m (topCandidates (similarItemRows r likes)) geo likes ++ likes)
            (100 - (validateCollab m (topCandidates (similarItemRows r likes)) geo
                likes).length) := by
    unfold get_collaborative_recommendations_via_items
    rw [if_neg (by simp [hlikes]), if_neg (by simp [hsim]), if_pos hshort]
  refine ⟨heq, ?_, ?_⟩
  · rw [heq]
    apply List.Nodup.append
    · exact nodup_filterSortTakeMap _ _ _ _ hids
    · exact nodup_filterSortTakeMap _ _ _ _ hids
    · intro x hxc hxf
      exact absurd (List.mem_append_left _ hxc) (mem_popularFill_excluded hxf)
  · intro x hx
    rw [heq] at hx
    rcases List.mem_append.mp hx with hx | hx
    · exact mem_validateCollab_not_lik hlikes hx
    · exact fun hmem =>
        absurd (List.mem_append_right _ hmem) (mem_popularFill_excluded hx)

/-! ## C3: popularity fallback chain -/

/-- C3: with cached demographics carrying both a gender and an age group,
the fallback tries exactly the four variants exact → gender-only →
age-only → generic in that order and returns the first nonempty variant
result; in particular a user with cached {f, 25-34} in a geo whose popular
rows are all fully generic is served from the generic variant. -/
theorem claim_C3_fallback_chain (m : MainDB) (r : RecDB) (cache : DemoCache)
    (geo : Int) (likes : List String) (uid g a : String)
    (hc : cache uid = some ⟨some g, some a⟩) (hg : g ≠ "") (ha : a ≠ "") :
    get_fallback_popular_items m r cache geo likes (some uid)
      = firstNonEmpty
          [variantResult m r geo g a, variantResult m r geo g "any",
           variantResult m r geo "any" a, variantResult m r geo "any" "any"] ∧
    ((g = "f" ∧ a = "25-34" ∧
        ∀ row ∈ r.popularItems, row.gender = "any" ∧ row.ageGroup = "any") →
      get_fallback_popular_items m r cache geo likes (some uid)
        = variantResult m r geo "any" "any") := by
  have hq : queryVariants (cache uid) = [(g, a), (g, "any"), ("any", a), ("any", "any")] := by
    rw [hc]
    simp [queryVariants, truthy, hg, ha]
  have hmain : get_fallback_popular_items m r cache geo likes (some uid)
      = firstNonEmpty
          [variantResult m r geo g a, variantResult m r geo g "any",
           variantResult m r geo "any" a, variantResult m r geo "any" "any"] := by
    show firstNonEmpty ((queryVariants (cache uid)).map
      (fun ga => variantResult m r geo ga.1 ga.2)) = _
    rw [hq]
    rfl
  refine ⟨hmain, ?_⟩
  rintro ⟨hgf, ha25, hrows⟩
  have hgany : g ≠ "any" := by rw [hgf]; decide
  have haany : a ≠ "any" := by rw [ha25]; decide
  have e1 : ∀ g2, g2 = g →
      variantResult m r geo g2 a = [] ∧ variantResult m r geo g2 "any" = [] := by
    intro g2 hg2
    have hfil : ∀ a2, r.popularItems.filter (fun row =>
        row.geoId = geo && row.gender = g2 && (a2 = "any" || row.ageGroup = a2)) = [] := by
      intro a2
      apply List.filter_eq_nil.mpr
      intro row hrow
      have h2 := (hrows row hrow).1
      simp [h2, hg2, hgf]
    constructor <;>
      · unfold variantResult popularVariantQuery
        rw [hfil]
        rfl
  have e3 : variantResult m r geo "any" a = [] := by
    have hfil : r.popularItems.filter (fun row =>
        row.geoId = geo && row.gender = "any" && (a = "any" || row.ageGroup = a)) = [] := by
      apply List.filter_eq_nil.mpr
      intro row hrow
      have h2 := (hrows row hrow).2
      simp [h2, haany, ha25]
    unfold variantResult popularVariantQuery
    rw [hfil]
    rfl
  rw [hmain, (e1 g rfl).1, (e1 g rfl).2, e3]
  by_cases hD : (variantResult m r geo "any" "any").isEmpty
  · simp only [firstNonEmpty, List.isEmpty_nil, if_pos hD, if_true]
    rw [List.isEmpty_iff.mp hD]
  · simp [firstNonEmpty, hD]

/-! ## C6: pagination after filtering -/

/-- C6: the served page and the pagination metadata are computed from the
post-filter list (pagination is applied after `_apply_filters`, never
before), and the boundary arithmetic holds: a 100-item filtered list with
page size 20 gives page 5 the last 20 items with `has_next = false`,
`has_previous = true`, `total_pages = 5`, and page 6 an empty list. -/
theorem claim_C6_pagination_after_filtering :
    (∀ (m : MainDB) (r : RecDB) (cache : DemoCache) (req : PersonalizedRequest) (now : ℚ),
      (get_personalized_recommendations m r cache req now).items
        = pageSlice
            (apply_filters m (dispatchPersonalized m r cache req now).1 req.filters req.geo_id)
            req.page req.limit ∧
      (get_personalized_recommendations m r cache req now).pagination.total_count
        = (apply_filters m (dispatchPersonalized m r cache req now).1 req.filters
            req.geo_id).length ∧
      (get_personalized_recommendations m r cache req now).pagination.total_pages
        = totalPages
            (apply_filters m (dispatchPersonalized m r cache req now).1 req.filters
              req.geo_id).length
            req.limit) ∧
    (∀ l : List String, l.length = 100 →
      pageSlice l 5 20 = l.drop 80 ∧
      (pageSlice l 5 20).length = 20 ∧
      buildPagination l.length 5 20
        = { page := 5, limit := 20, total_pages := 5, total_count := 100,
            has_next := false, has_previous := true } ∧
      pageSlice l 6 20 = []) := by
  constructor
  · intro m r cache req now
    exact ⟨rfl, rfl, rfl⟩
  · intro l hl
    refine ⟨?_, ?_, ?_, ?_⟩
    · show (l.drop ((5 - 1) * 20)).take 20 = l.drop 80
      norm_num
      omega
    · show ((l.drop ((5 - 1) * 20)).take 20).length = 20
      simp [hl]
    · rw [hl]
      rfl
    · show (l.drop ((6 - 1) * 20)).take 20 = []
      rw [List.drop_eq_nil_of_le (by omega)]
      rfl

/-- Witness for the C6 boundary arithmetic on a concrete 100-item list. -/
theorem claim_C6_pagination_witness :
    pageSlice (List.replicate 100 "x") 5 20 = (List.replicate 100 "x").drop 80 ∧
    (pageSlice (List.replicate 100 "x") 5 20).length = 20 ∧
    buildPagination (List.replicate 100 "x").length 5 20
      = { page := 5, limit := 20, total_pages := 5, total_count := 100,
          has_next := false, has_previous := true } ∧
    pageSlice (List.replicate 100 "x") 6 20 = [] :=
  claim_C6_pagination_after_filtering.2 (List.replicate 100 "x") (by simp)

/-! ## Concrete stores for the serving-layer witnesses -/

def mC2 : MainDB :=
  { presents :=
      [⟨"c1", 1, [], 10, "oz", "in_stock", none, 0⟩,
       ⟨"c2", 1, [], 10, "oz", "in_stock", none, 0⟩,
       ⟨"p1", 1, [], 10, "oz", "in_stock", none, 0⟩,
       ⟨"p2", 1, [], 10, "oz", "in_stock", none, 0⟩,
       ⟨"p3", 1, [], 10, "oz", "in_stock", none, 0⟩,
       ⟨"L1", 1, [], 10, "oz", "in_stock", none, 0⟩]
    likes := [⟨"u0", "L1"⟩]
    clicks := [] }

def rC2 : RecDB :=
  { popularItems := []
    itemSimilarities := [⟨"L1", "c1", 1, 2, 2, 2⟩, ⟨"L1", "c2", 1, 2, 2, 2⟩]
    userProfiles := [] }

/-- Witness for C2: a user with one like, exactly 2 valid
similarity-derived candidates and 3 available popularity-fill items gets
exactly those 2 collaborative items followed by the 3 fill items. -/
theorem claim_C2_collaborative_top_up_witness :
    get_collaborative_recommendations_via_items mC2 rC2 1 ["L1"]
      = ["c1", "c2", "p1", "p2", "p3"] ∧
    (get_collaborative_recommendations_via_items mC2 rC2 1 ["L1"]).Nodup ∧
    "L1" ∉ get_collaborative_recommendations_via_items mC2 rC2 1 ["L1"] := by
  have h := claim_C2_collaborative_top_up mC2 rC2 1 ["L1"]
    (by decide) (by decide) (by decide) (by decide)
  refine ⟨?_, h.2.1, fun hm => absurd (h.2.2 "L1" hm) (by decide)⟩
  rw [h.1]
  decide

def cacheNone : DemoCache := fun _ => none

def mEmpty : MainDB := ⟨[], [], []⟩

def rEmpty : RecDB := ⟨[], [], []⟩

def reqU1 : PersonalizedRequest := ⟨"u1", 1, none, 1, 20⟩

def reqU0 : PersonalizedRequest := ⟨"u0", 1, none, 1, 20⟩

def profileLight : UserProfileRow := ⟨"u1", [], [], none, [], [], [], 1⟩

def profileEstablished : UserProfileRow := ⟨"u0", [], [], none, [], [], [], 3⟩

def rLight : RecDB := ⟨[], [], [profileLight]⟩

def rCollabEmpty : RecDB := ⟨[], [], [profileEstablished]⟩

def rCollab : RecDB :=
  { popularItems := []
    itemSimilarities := rC2.itemSimilarities
    userProfiles := [profileEstablished] }

/-- Witness for C1, one concrete store per tier: no profile, a light
profile (1 interaction), an established profile with nonempty
collaborative candidates, and an established profile whose collaborative
lookup is empty (one-shot downgrade). -/
theorem claim_C1_tier_selection_witness :
    dispatchPersonalized mEmpty rEmpty cacheNone reqU1 0
      = (get_fallback_popular_items mEmpty rEmpty cacheNone 1
          (get_user_likes mEmpty "u1") (some "u1"), "popular_fallback") ∧
    (dispatchPersonalized mEmpty rLight cacheNone reqU1 0).2 = "content_based" ∧
    (dispatchPersonalized mC2 rCollab cacheNone reqU0 0).2 = "collaborative" ∧
    (dispatchPersonalized mC2 rCollabEmpty cacheNone reqU0 0).2
      = "collaborative_fallback_content" := by
  refine ⟨?_, ?_, ?_, ?_⟩
  · exact (claim_C1_tier_selection mEmpty rEmpty cacheNone reqU1 0).1 rfl
  · exact congrArg Prod.snd
      ((claim_C1_tier_selection mEmpty rLight cacheNone reqU1 0).2.2.1
        profileLight rfl (by decide) (by decide))
  · exact congrArg Prod.snd
      (((claim_C1_tier_selection mC2 rCollab cacheNone reqU0 0).2.2.2
          profileEstablished rfl (by decide)).1 (by decide))
  · exact congrArg Prod.snd
      (((claim_C1_tier_selection mC2 rCollabEmpty cacheNone reqU0 0).2.2.2
          profileEstablished rfl (by decide)).2 (by decide))

def cacheC3 : DemoCache := fun _ => some ⟨some "f", some "25-34"⟩

def rC3 : RecDB :=
  { popularItems := [⟨7, "any", "any", "any", "g1", 5⟩, ⟨7, "any", "any", "any", "g2", 3⟩]
    itemSimilarities := []
    userProfiles := [] }

def mC3 : MainDB :=
  { presents := [⟨"g1", 7, [], 10, "oz", "in_stock", none, 0⟩]
    likes := []
    clicks := [] }

/-- Witness for C3: cached {f, 25-34} and a geo with only generic popular
rows — the generic variant serves the result. -/
theorem claim_C3_fallback_chain_witness :
    get_fallback_popular_items mC3 rC3 cacheC3 7 [] (some "u")
      = variantResult mC3 rC3 7 "any" "any" ∧
    get_fallback_popular_items mC3 rC3 cacheC3 7 [] (some "u") = ["g1"] := by
  have h := claim_C3_fallback_chain mC3 rC3 cacheC3 7 [] "u" "f" "25-34"
    rfl (by decide) (by decide)
  have h2 := h.2 ⟨rfl, rfl, by decide⟩
  exact ⟨h2, by rw [h2]; decide⟩

/-! ## C9: error propagation (`get_popular_items`, `_apply_filters`) -/

/-- A query site of the popular-items request path. -/
inductive QSite
  | popularQuery
  | filterQuery
  deriving DecidableEq

/-- The stores with fault injection: a query executed at a site listed in
`fails` raises, every other query returns its computed rows. -/
structure StoreE where
  main : MainDB
  recdb : RecDB
  fails : List QSite

/-- One store query: `Except.error` models a raised database exception. -/
def runQ {α : Type} (s : StoreE) (site : QSite) (v : α) : Except String α :=
  if s.fails.contains site then Except.error "store unavailable" else Except.ok v

/-- `RecommendationServiceV2._query_popular_items`: every demographic
condition admits the request value or the wildcard "any", NULL parameters
match everything; score-descending, capped at 200. -/
def query_popular_items (r : RecDB) (up : UserParams) : List String :=
  ((sortDescBy (·.score)
      (r.popularItems.filter (fun row =>
        row.geoId = up.geo_id &&
        (match up.gender with
         | none => true | some g => row.gender = g || row.gender = "any") &&
        (match up.age with
         | none => true | some a => row.ageGroup = a || row.ageGroup = "any") &&
        (match up.category with
         | none => true | some c => row.category = c || row.category = "any")))).map
    (·.itemId)).take 200

/-- `_apply_filters` with its `try/except`: a failing filter query is
caught and the unfiltered candidate list is returned, never an error. -/
def apply_filters_e (s : StoreE) (ids : List String) (f : Option Filters) (geo : Int) :
    Except String (List String) :=
  if ids.isEmpty then Except.ok []
  else
    match f with
    | none => Except.ok ids
    | some ff =>
      match runQ s QSite.filterQuery (filterQuery s.main ids ff geo) with
      | Except.ok v => Except.ok v
      | Except.error _ => Except.ok ids

/-- The cache-miss body of `get_popular_items`: a raised query error
propagates out of the surrounding `try` (which re-raises), while the
filter step fails soft. -/
def get_popular_items_e (s : StoreE) (req : PopularItemsRequest) :
    Except String RecommendationResponse :=
  match runQ s QSite.popularQuery (query_popular_items s.recdb req.user_params) with
  | Except.error e => Except.error e
  | Except.ok pop =>
    match apply_filters_e s pop req.filters req.user_params.geo_id with
    | Except.error e => Except.error e
    | Except.ok filtered =>
      Except.ok ⟨pageSlice filtered req.page req.limit,
                 buildPagination filtered.length req.page req.limit, "popular"⟩

theorem apply_filters_e_fail {s : StoreE} (h : s.fails = [QSite.filterQuery])
    (ids : List String) (f : Option Filters) (geo : Int) :
    apply_filters_e s ids f geo = Except.ok ids := by
  unfold apply_filters_e runQ
  rw [h]
  by_cases he : ids.isEmpty
  · rw [if_pos he, List.isEmpty_iff.mp he]
  · rw [if_neg he]
    cases f
    · rfl
    · rfl

/-- C9 (amended): a failure of the popular-items store query fails the
whole request, but a failure of the live-inventory filter re-validation
query does not — the request then succeeds with the unfiltered candidate
list, the filters silently unapplied. -/
theorem claim_C9_error_propagation (s : StoreE) (req : PopularItemsRequest) :
    (QSite.popularQuery ∈ s.fails →
      get_popular_items_e s req = Except.error "store unavailable") ∧
    (s.fails = [QSite.filterQuery] →
      get_popular_items_e s req
        = Except.ok
            ⟨pageSlice (query_popular_items s.recdb req.user_params) req.page req.limit,
             buildPagination (query_popular_items s.recdb req.user_params).length
               req.page req.limit,
             "popular"⟩) := by
  constructor
  · intro h
    have hc : s.fails.contains QSite.popularQuery = true := List.elem_iff.mpr h
    unfold get_popular_items_e runQ
    rw [if_pos hc]
  · intro h
    unfold get_popular_items_e runQ
    rw [h]
    rw [if_neg (by decide)]
    show ((match apply_filters_e s (query_popular_items s.recdb req.user_params)
        req.filters req.user_params.geo_id with
      | Except.error e => Except.error e
      | Except.ok filtered =>
        Except.ok { items := pageSlice filtered req.page req.limit
                    pagination := buildPagination filtered.length req.page req.limit
                    algorithm_used := "popular" }) : Except String RecommendationResponse) = _
    rw [apply_filters_e_fail h]

def mC9 : MainDB :=
  { presents := [⟨"g1", 1, [], 10, "ozon", "in_stock", none, 0⟩,
                 ⟨"g2", 1, [], 10, "wb", "in_stock", none, 0⟩]
    likes := []
    clicks := [] }

def rC9 : RecDB :=
  { popularItems := [⟨1, "any", "any", "any", "g1", 5⟩, ⟨1, "any", "any", "any", "g2", 3⟩]
    itemSimilarities := []
    userProfiles := [] }

def fPlatC9 : Filters := ⟨none, none, none, none, none, some "ozon"⟩

def reqC9 : PopularItemsRequest := ⟨⟨none, none, none, 1⟩, some fPlatC9, 1, 20⟩

def storeC9fail : StoreE := ⟨mC9, rC9, [QSite.filterQuery]⟩

def storeC9failPop : StoreE := ⟨mC9, rC9, [QSite.popularQuery]⟩

/-- C9 counterexample: the filter re-validation query fails on a request
with an active platform filter, yet the request succeeds and returns the
unfiltered candidates — including "g2", which the filter excludes. -/
theorem claim_C9_counterexample :
    get_popular_items_e storeC9fail reqC9
      = Except.ok ⟨["g1", "g2"], buildPagination 2 1 20, "popular"⟩ ∧
    storeC9fail.fails = [QSite.filterQuery] ∧
    filterQuery storeC9fail.main ["g1", "g2"] fPlatC9 1 = ["g1"] := by
  refine ⟨rfl, rfl, by decide⟩

/-- Witness for the amended C9 at the two concrete fault injections. -/
theorem claim_C9_error_propagation_witness :
    get_popular_items_e storeC9failPop reqC9 = Except.error "store unavailable" ∧
    get_popular_items_e storeC9fail reqC9
      = Except.ok
          ⟨pageSlice (query_popular_items storeC9fail.recdb reqC9.user_params) 1 20,
           buildPagination (query_popular_items storeC9fail.recdb reqC9.user_params).length 1 20,
           "popular"⟩ := by
  constructor
  · exact (claim_C9_error_propagation storeC9failPop reqC9).1 (by decide)
  · exact (claim_C9_error_propagation storeC9fail reqC9).2 rfl

end SantaRec
